import Mathlib

/-!
Formal model of src/pedersen.py, a pairing-based Pedersen commitment scheme
over the bn128 curve.

The elliptic-curve/pairing library (py_ecc.bn128) is an external collaborator,
out of scope per the specification (sections 1 and 6), and is modelled here by
its interface contract: G1, G2 and GT are cyclic groups of the same prime
order (the bn128 group order), and the pairing e : G2 x G1 -> GT is bilinear
and non-degenerate.  Accordingly every group element is represented by its
discrete logarithm with respect to the fixed generator of its group (for GT,
with respect to e(G2, G1)), scalar multiplication is multiplication of the
exponent, point addition is addition of exponents, and the pairing multiplies
exponents.  The protocol logic of the script — setup-parameter derivation,
commitment construction and pairing-equation verification — is translated
line by line, generalized over the setup scalar and the two committed values
exactly where the script fixes them to s = 4, a = 2, b_value = 3.
-/

namespace Pedersen

/-- Order of the bn128 groups G1, G2 and GT (py_ecc.bn128 curve_order),
the curve's scalar-field order. -/
def curveOrder : ℕ :=
  21888242871839275222246405745257275088548364400416034343698204186575808495617

/-- Exponent ring of the curve: the scalar field Z/curveOrder. -/
abbrev Fr := ZMod curveOrder

/-- Element of G1, represented by its discrete logarithm with respect to the
generator G1. -/
abbrev G1Elem := ZMod curveOrder

/-- Element of G2, represented by its discrete logarithm with respect to the
generator G2. -/
abbrev G2Elem := ZMod curveOrder

/-- Element of the pairing target group GT, represented by its discrete
logarithm with respect to e(G2, G1). -/
abbrev GTElem := ZMod curveOrder

/-- The fixed public generator of G1 (exponent 1). -/
def G1gen : G1Elem := 1

/-- The fixed public generator of G2 (exponent 1). -/
def G2gen : G2Elem := 1

/-- Scalar multiplication on G1: the library operation multiply(P, k).
In the exponent representation this multiplies the exponent by k mod the
group order (the script passes Python integers, reduced by the group's
order since G1 has exact order curveOrder). -/
def multiplyG1 (P : G1Elem) (k : ℕ) : G1Elem := (k : Fr) * P

/-- Scalar multiplication on G2: the library operation multiply(Q, k). -/
def multiplyG2 (Q : G2Elem) (k : ℕ) : G2Elem := (k : Fr) * Q

/-- Point addition on G1: the library operation add(P, Q). -/
def addG1 (P Q : G1Elem) : G1Elem := P + Q

/-- Bilinear pairing e : G2 x G1 -> GT: the library operation pairing(Q, P).
Since e(x·G2, y·G1) = e(G2, G1)^(x·y), in the exponent representation the
pairing multiplies the two discrete logarithms. -/
def pairingE (Q : G2Elem) (P : G1Elem) : GTElem := Q * P

/-- Multiplication in GT (the * of FQ12 elements in the script): addition of
discrete logarithms. -/
def gtMul (x y : GTElem) : GTElem := x + y

/-- Exponentiation in GT by a natural exponent (the ** of FQ12 elements in
the script): multiplication of the discrete logarithm by the exponent. -/
def gtPow (x : GTElem) (k : ℕ) : GTElem := (k : Fr) * x

/-- Curve-membership check is_on_curve(P, b) of the external library for G1.
bn128 G1 has cofactor 1, so E(Fp) is exactly the cyclic group of order
curveOrder; in the discrete-log representation every value denotes a group
element and membership always holds (the library guarantees closure of add
and multiply). -/
def isOnCurveG1 (_P : G1Elem) : Bool := true

/-- Public reference parameters produced by the trusted setup
(spec section 3 data model: paramG1 in G1, paramG2 in G2). -/
structure PublicParameters where
  paramG1 : G1Elem
  paramG2 : G2Elem

/-- Setup-parameter derivation, src/pedersen.py lines 21-27, generalized over
the setup scalar s (the script fixes s = 4):
g1_s = multiply(G1, s) and h1_s = multiply(G2, s). -/
def generateParameters (s : ℕ) : PublicParameters :=
  { paramG1 := multiplyG1 G1gen s, paramG2 := multiplyG2 G2gen s }

/-- Commitment construction, src/pedersen.py lines 29-35, generalized over the
committed values (the script fixes a = 2, b_value = 3):
commitment = add(multiply(g1_s, a), multiply(G1, b_value)). -/
def commit (valueA valueB : ℕ) (params : PublicParameters) : G1Elem :=
  addG1 (multiplyG1 params.paramG1 valueA) (multiplyG1 G1gen valueB)

/-- Left side of the verification equation, src/pedersen.py line 77:
left = pairing(G2, commitment). -/
def verifyLeft (c : G1Elem) : GTElem := pairingE G2gen c

/-- Right side of the verification equation, src/pedersen.py lines 79-92,
generalized over the claimed values:
right = pairing(h1_s, G1) ** a * pairing(G2, G1) ** b_value. -/
def verifyRight (params : PublicParameters) (claimedA claimedB : ℕ) : GTElem :=
  gtMul (gtPow (pairingE params.paramG2 G1gen) claimedA)
    (gtPow (pairingE G2gen G1gen) claimedB)

/-- Verification outcome, src/pedersen.py lines 95-98: the script reports
success exactly when left == right. -/
def verify (params : PublicParameters) (c : G1Elem) (claimedA claimedB : ℕ) :
    Bool :=
  if verifyLeft c = verifyRight params claimedA claimedB then true else false

/-- Verifier recomputed from the words of spec section 4.3, for comparison
with the source-derived verify: left = e(G2, commitment),
crossTerm = e(params.paramG2, G1), baseTerm = e(G2, G1),
right = crossTerm^claimedA * baseTerm^claimedB, result true iff
left == right under exact GT equality. -/
def verifySpecSide (params : PublicParameters) (c : G1Elem)
    (claimedA claimedB : ℕ) : Bool :=
  let left := pairingE G2gen c
  let crossTerm := pairingE params.paramG2 G1gen
  let baseTerm := pairingE G2gen G1gen
  let right := gtMul (gtPow crossTerm claimedA) (gtPow baseTerm claimedB)
  if left = right then true else false

/-! Helper lemmas shared by the claim theorems. -/

theorem verify_eq_true_iff (params : PublicParameters) (c : G1Elem)
    (claimedA claimedB : ℕ) :
    verify params c claimedA claimedB = true ↔
      verifyLeft c = verifyRight params claimedA claimedB := by
  unfold verify
  split <;> simp_all

theorem verifyLeft_commit (s valueA valueB : ℕ) :
    verifyLeft (commit valueA valueB (generateParameters s)) =
      ((valueA * s + valueB : ℕ) : Fr) := by
  simp only [verifyLeft, commit, generateParameters, multiplyG1, multiplyG2,
    addG1, pairingE, G1gen, G2gen]
  push_cast
  ring

theorem verifyRight_gp (s claimedA claimedB : ℕ) :
    verifyRight (generateParameters s) claimedA claimedB =
      ((claimedA * s + claimedB : ℕ) : Fr) := by
  simp only [verifyRight, generateParameters, multiplyG1, multiplyG2, gtMul,
    gtPow, pairingE, G1gen, G2gen]
  push_cast
  ring

/-- Acceptance characterization of the verifier on honestly generated
parameters and commitment: the pairing check holds iff the claimed pair
agrees with the committed pair modulo the group order. -/
theorem verify_honest_iff (s a b claimedA claimedB : ℕ) :
    verify (generateParameters s) (commit a b (generateParameters s))
        claimedA claimedB = true ↔
      claimedA * s + claimedB ≡ a * s + b [MOD curveOrder] := by
  rw [verify_eq_true_iff, verifyLeft_commit, verifyRight_gp,
    ZMod.natCast_eq_natCast_iff]
  exact ⟨Nat.ModEq.symm, Nat.ModEq.symm⟩

/-! Claim theorems. -/

/-- C1: Honest verification succeeds: for every pair of scalars (a, b) and
every setup scalar s, verifying with the true values accepts —
verify(generateParameters(s), commit(a, b, generateParameters(s)), a, b)
returns true. -/
theorem claim_C1 (s a b : ℕ) :
    verify (generateParameters s) (commit a b (generateParameters s)) a b =
      true :=
  (verify_honest_iff s a b a b).mpr (Nat.ModEq.refl _)

/-- C2: The verifier computes exactly left = e(G2, commitment),
crossTerm = e(paramG2, G1), baseTerm = e(G2, G1) and
right = crossTerm^claimedA * baseTerm^claimedB, returning true iff
left == right under exact GT equality (first two conjuncts: the
source-derived verify coincides with the verifier recomputed from the spec's
formulas, and acceptance is exactly left = right); the cross term, obtained
by pairing paramG2 with G1, equals the never-directly-computed
e(G2, paramG1) on setup-generated parameters (third conjunct, the
bilinear-swap identity). -/
theorem claim_C2 :
    (∀ (params : PublicParameters) (c : G1Elem) (claimedA claimedB : ℕ),
        verify params c claimedA claimedB =
          verifySpecSide params c claimedA claimedB) ∧
    (∀ (params : PublicParameters) (c : G1Elem) (claimedA claimedB : ℕ),
        verify params c claimedA claimedB = true ↔
          verifyLeft c = verifyRight params claimedA claimedB) ∧
    (∀ s : ℕ, pairingE (generateParameters s).paramG2 G1gen =
        pairingE G2gen (generateParameters s).paramG1) := by
  refine ⟨fun params c claimedA claimedB => rfl, verify_eq_true_iff,
    fun s => ?_⟩
  simp only [generateParameters, pairingE, multiplyG1, multiplyG2, G1gen,
    G2gen]
  ring

/-- C3: For every pair of scalars and public parameters,
commit(valueA, valueB, params) returns the G1 element
(valueA · params.paramG1) + (valueB · G1), computed by group scalar
multiplication and point addition. -/
theorem claim_C3 (valueA valueB : ℕ) (params : PublicParameters) :
    commit valueA valueB params =
        addG1 (multiplyG1 params.paramG1 valueA) (multiplyG1 G1gen valueB) ∧
      commit valueA valueB params =
        (valueA : Fr) * params.paramG1 + (valueB : Fr) * G1gen :=
  ⟨rfl, rfl⟩

/-- C4: For every setup scalar s, generateParameters(s) returns the pair
(paramG1, paramG2) with paramG1 = s · G1 and paramG2 = s · G2, each computed
by scalar multiplication of the fixed generator of the respective group by
the same scalar s. -/
theorem claim_C4 (s : ℕ) :
    (generateParameters s).paramG1 = (s : Fr) * G1gen ∧
      (generateParameters s).paramG2 = (s : Fr) * G2gen :=
  ⟨rfl, rfl⟩

/-- C5 counterexample: generateParameters(0) does not fail; it returns the
degenerate parameters (0 · G1, 0 · G2), the identity elements of G1 and G2
(the point at infinity in the library's representation), rather than
rejecting the zero scalar with InvalidScalar. -/
theorem claim_C5_counterexample :
    generateParameters 0 = { paramG1 := 0, paramG2 := 0 } := by
  simp [generateParameters, multiplyG1, multiplyG2]

/-- C5 amended: generateParameters(0) is not rejected — it returns the
degenerate pair of identity elements, under which the commitment is
independent of valueA (the trivial forgeability the spec's InvalidScalar
requirement for reimplementations is meant to prevent). -/
theorem claim_C5 (valueA valueA' valueB : ℕ) :
    commit valueA valueB (generateParameters 0) =
      commit valueA' valueB (generateParameters 0) := by
  simp [commit, generateParameters, multiplyG1, multiplyG2, addG1, G1gen,
    G2gen]

/-- C6: Tampered value fails on the script's concrete instance: with
a = 2, b = 3, s = 4, verifying the commitment against the mismatched
claimed pair (2, 4) returns false. -/
theorem claim_C6 :
    verify (generateParameters 4) (commit 2 3 (generateParameters 4)) 2 4 =
      false := by
  by_contra h
  have hv : verify (generateParameters 4) (commit 2 3 (generateParameters 4))
      2 4 = true := by
    cases hveq : verify (generateParameters 4)
        (commit 2 3 (generateParameters 4)) 2 4
    · exact absurd hveq h
    · rfl
  have hmod : (2 * 4 + 4 : ℕ) ≡ 2 * 4 + 3 [MOD curveOrder] :=
    (verify_honest_iff 4 2 3 2 4).mp hv
  have hne : ¬ ((2 * 4 + 4 : ℕ) ≡ 2 * 4 + 3 [MOD curveOrder]) := by decide
  exact hne hmod

/-- C7: Setup consistency: for every nonzero scalar s,
pairing(G2, multiply(G1, s)) equals pairing(multiply(G2, s), G1). -/
theorem claim_C7 (s : ℕ) (_hs : s ≠ 0) :
    pairingE G2gen (multiplyG1 G1gen s) =
      pairingE (multiplyG2 G2gen s) G1gen := by
  simp only [pairingE, multiplyG1, multiplyG2, G1gen, G2gen]
  ring

/-- C7 witness: the setup-consistency identity at the script's concrete
setup scalar s = 4. -/
theorem claim_C7_witness :
    (4 : ℕ) ≠ 0 ∧
      pairingE G2gen (multiplyG1 G1gen 4) =
        pairingE (multiplyG2 G2gen 4) G1gen :=
  ⟨by decide, claim_C7 4 (by decide)⟩

/-- C8: The commitment returned by commit is a valid element of G1: the
curve-membership check holds for the result of commit on every input (in
the group model membership holds by closure of the library's add and
multiply, which is why the script's explicit check on line 45 — and the
MalformedPoint branch the spec requires of reimplementations — can never
observe a failure). -/
theorem claim_C8 (valueA valueB : ℕ) (params : PublicParameters) :
    isOnCurveG1 (commit valueA valueB params) = true :=
  rfl

/-- C9: At the interface, the value false is produced exactly when the
pairing identity fails to hold: verify returns false iff left ≠ right and
true iff left = right, so the two outcomes partition the behavior on
well-formed inputs and a false result is never produced by any other path
(in this model of the script every represented input is a well-formed group
element, so the could-not-evaluate error branch is unreachable). -/
theorem claim_C9 (params : PublicParameters) (c : G1Elem)
    (claimedA claimedB : ℕ) :
    (verify params c claimedA claimedB = false ↔
        verifyLeft c ≠ verifyRight params claimedA claimedB) ∧
      (verify params c claimedA claimedB = true ↔
        verifyLeft c = verifyRight params claimedA claimedB) := by
  refine ⟨?_, verify_eq_true_iff params c claimedA claimedB⟩
  rw [ne_eq, ← verify_eq_true_iff params c claimedA claimedB]
  cases hv : verify params c claimedA claimedB <;> simp

/-- C10: Acceptance characterization: on parameters and commitment generated
from s, a, b, the verifier accepts (claimedA, claimedB) iff
claimedA·s + claimedB ≡ a·s + b modulo the curve's scalar-field order;
consequently for every s, a, b some claimed pair different from (a, b) is
accepted. -/
theorem claim_C10 :
    (∀ s a b claimedA claimedB : ℕ,
        verify (generateParameters s) (commit a b (generateParameters s))
            claimedA claimedB = true ↔
          claimedA * s + claimedB ≡ a * s + b [MOD curveOrder]) ∧
    (∀ s a b : ℕ, ∃ claimedA claimedB : ℕ,
        (claimedA, claimedB) ≠ (a, b) ∧
          verify (generateParameters s) (commit a b (generateParameters s))
            claimedA claimedB = true) := by
  refine ⟨verify_honest_iff,
    fun s a b => ⟨a + 1, b + (curveOrder - 1) * s, ?_, ?_⟩⟩
  · intro h
    have hfst := congrArg Prod.fst h
    simp only at hfst
    omega
  · rw [verify_honest_iff]
    have hn : curveOrder - 1 + 1 = curveOrder := by decide
    have heq : (a + 1) * s + (b + (curveOrder - 1) * s) =
        (a * s + b) + curveOrder * s := by
      calc (a + 1) * s + (b + (curveOrder - 1) * s)
          = (a * s + b) + ((curveOrder - 1) + 1) * s := by ring
        _ = (a * s + b) + curveOrder * s := by rw [hn]
    rw [heq]
    show ((a * s + b) + curveOrder * s) % curveOrder = (a * s + b) % curveOrder
    exact Nat.add_mul_mod_self_left (a * s + b) curveOrder s

end Pedersen
